import Mathlib

/-!
Verification development for the dcos-e2e cluster backend and node layer.

The definitions below are a shallow embedding of the Python sources
`src/dcos_e2e/_dcos_docker.py` and `src/dcos_e2e/node.py`.

Modelling conventions:
* A filesystem path is its pathlib parts list, e.g. the absolute path
  /genconf/foo is embedded as ["/", "genconf", "foo"].
* Side effects (subprocess runs, file copies, container queries, directory
  removal) are reified as an `Effect` trace returned next to the result.
* External collaborators (the docker daemon, the `make` tool, yaml.dump)
  enter as explicit oracle parameters: e.g. the outcome of the i-th `make`
  invocation is `make_results i`, and the container inventory is a partial
  map from container name to inspected IP address.
* Python exceptions become `Except` / explicit error sums.
-/

/-- Embedding of `pathlib.PurePath.relative_to`: succeeds with the part list
of the relative remainder when `root` is a parts-wise prefix of `p`, and
fails (Python raises `ValueError`) otherwise. -/
def relative_to (p root : List String) : Option (List String) :=
  if root.isPrefixOf p then some (p.drop root.length) else none

/-- Parts of the installer mount root `/genconf`. -/
def genconfRoot : List String := ["/", "genconf"]

/-- Rendering of a parts list back to the string form `str(path)` used when a
path is interpolated into a command line. Kept abstract at the level of
intercalation; no claim depends on the exact rendering. -/
def pathStr (p : List String) : String := String.intercalate "/" p

/-- Embedding of the `Node` record (`node.py` lines 15-31): an IP address and
the path of the SSH private key. The Python class defines no custom
equality, so distinct constructions are distinct objects; sets of nodes are
therefore embedded as lists of the constructed records, in construction
order. -/
structure Node where
  ip_address : String
  ssh_key_path : List String
deriving DecidableEq, Repr

/-- Embedding of `subprocess.CalledProcessError` as observed by
`_create_containers`: the captured error text and output text. -/
structure CalledProcessError where
  stderr : String
  stdout : String
deriving DecidableEq, Repr

/-- The first conflict signature, line 158 of the backend source. -/
def conflict_error_substring : String := "Conflict. The container name"

/-- The second conflict signature, line 159 of the backend source. -/
def other_conflict_error_substring : String := "Conflict. The name"

/-- Substring containment, the embedding of the Python `in` test on `str`:
the character list of the needle is a contiguous infix of the character list
of the haystack. -/
def strContains (haystack needle : String) : Bool :=
  decide (needle.toList <:+: haystack.toList)

/-- The conflict test of `_create_containers` (`_dcos_docker.py` lines
161-170): build `str(exc.stderr) + str(exc.stdout)` and look for either
conflict signature in it. -/
def isConflictError (e : CalledProcessError) : Bool :=
  strContains (e.stderr ++ e.stdout) conflict_error_substring ||
    strContains (e.stderr ++ e.stdout) other_conflict_error_substring

/-- Reified side effects of the backend and node layer. -/
inductive Effect where
  /-- Embedding of `run_subprocess`; `cwd` is `none` when not passed. -/
  | runProc (args : List String) (cwd : Option (List String))
  /-- Embedding of `subprocess.Popen` from `popen_as_root`. -/
  | spawnProc (args : List String)
  /-- Embedding of `shutil.copyfile`. -/
  | copyFile (src dst : List String)
  /-- Embedding of `shutil.copytree`, with the installer artifact ignored. -/
  | copyTreeE (src dst : List String)
  /-- Embedding of `shutil.rmtree` with its ignore-errors flag. -/
  | rmtree (path : List String) (ignore_errors : Bool)
  /-- Embedding of the docker client call `containers.get`. -/
  | getContainer (name : String)
deriving DecidableEq, Repr

/-- The argument vector built by `DCOS_Docker._make` (`_dcos_docker.py`
lines 186-189): `make`, one `KEY=VALUE` per variable in mapping order, then
the target. -/
def makeArgs (vars : List (String × String)) (target : String) : List String :=
  "make" :: (vars.map (fun kv => kv.1 ++ "=" ++ kv.2) ++ [target])

/-- Result of `_create_containers` under the `retry` decorator
(`delay=10, tries=30`): success, a propagated non-conflict process failure,
or exhaustion of the retry bound by conflicts. Each constructor records the
number of attempts issued and the total delay slept (10 units before each
re-attempt). -/
inductive CreateOutcome where
  | success (attempts delay : Nat)
  | fatal (e : CalledProcessError) (attempts delay : Nat)
  | exhausted (attempts delay : Nat)
deriving DecidableEq, Repr

/-- One retry-driven run of `_create_containers`. `make_results i` is the
outcome of the i-th invocation of `make ... all` (numbered from 0, `none`
meaning exit status 0). `fuel` is the number of tries remaining; the retry
decorator sleeps 10 units after a conflicting failure when tries remain,
re-raises the conflict when they do not, and propagates any non-conflict
failure at once. The trace records every `make` invocation issued. -/
def createGo (vars : List (String × String)) (cwd : List String)
    (make_results : Nat → Option CalledProcessError)
    (attempt delay : Nat) (tr : List Effect) : Nat → CreateOutcome × List Effect
  | 0 => (CreateOutcome.exhausted attempt delay, tr)
  | fuel + 1 =>
    let tr := tr ++ [Effect.runProc (makeArgs vars "all") (some cwd)]
    match make_results attempt with
    | none => (CreateOutcome.success (attempt + 1) delay, tr)
    | some e =>
      if isConflictError e then
        match fuel with
        | 0 => (CreateOutcome.exhausted (attempt + 1) delay, tr)
        | _ + 1 => createGo vars cwd make_results (attempt + 1) (delay + 10) tr fuel
      else (CreateOutcome.fatal e (attempt + 1) delay, tr)

/-- Function `_create_containers` with the decorator parameters of the source:
`tries=30`, `delay=10` (`_dcos_docker.py` line 148). -/
def createContainers (vars : List (String × String)) (cwd : List String)
    (make_results : Nat → Option CalledProcessError) : CreateOutcome × List Effect :=
  createGo vars cwd make_results 0 0 [] 30

/-- The value type of the `extra_config` mapping. The Python type is
`Dict[str, Any]`; values are abstracted to strings, which is enough for
every property stated here (the mapping is only tested for emptiness and
serialized by the external `yaml.dump`). -/
def ExtraConfig : Type := List (String × String)

instance : DecidableEq ExtraConfig := by
  unfold ExtraConfig
  exact inferInstance

/-- The pair `supported_storage_drivers` of line 113: overlay and aufs. -/
def supported_storage_drivers : List String := ["overlay", "aufs"]

/-- The storage-driver selection of the constructor (`_dcos_docker.py` lines
114-117): keep the reported host driver when it is in the supported pair,
otherwise force `aufs`. -/
def chooseStorageDriver (host_storage_driver : String) : String :=
  if supported_storage_drivers.contains host_storage_driver then
    host_storage_driver
  else "aufs"

/-- Assembly of `self._variables` (`_dcos_docker.py` lines 100-144).
`yaml_dump` is the external serializer, `random` the `uuid.uuid4()` string.
The two conditional entries mirror `if extra_config:` (non-empty test) and
`if custom_ca_key is not None:`. Mapping order is insertion order, as in
CPython dictionaries. -/
def clusterVariables (yaml_dump : ExtraConfig → String)
    (masters agents public_agents : Nat) (host_storage_driver random : String)
    (extra_config : ExtraConfig) (custom_ca_key : Option (List String)) :
    List (String × String) :=
  [("DOCKER_STORAGEDRIVER", chooseStorageDriver host_storage_driver),
   ("MESOS_SYSTEMD_ENABLE_SUPPORT", "false"),
   ("MASTERS", toString masters),
   ("AGENTS", toString agents),
   ("PUBLIC_AGENTS", toString public_agents),
   ("MASTER_CTR", "dcos-master-" ++ random ++ "-"),
   ("AGENT_CTR", "dcos-agent-" ++ random ++ "-"),
   ("PUBLIC_AGENT_CTR", "dcos-public-agent-" ++ random ++ "-")] ++
  (if extra_config.isEmpty then []
   else [("EXTRA_GENCONF_CONFIG", yaml_dump extra_config)]) ++
  (match custom_ca_key with
   | none => []
   | some k =>
     [("MASTER_MOUNTS",
       "-v " ++ pathStr k ++ ":/var/lib/dcos/pki/tls/CA/private/custom_ca.key")])

/-- Staging of `files_to_copy_to_installer` (`_dcos_docker.py` lines 95-98):
for each `(host_path, installer_path)` pair in mapping order, compute
`installer_path.relative_to` at the mount root `/genconf` — a failure there is the Python
`ValueError`, reported with the offending installer path — and copy the
host file to `<workdir>/genconf/<relative>`. Returns the copy effects
issued before any failure, and the failure if one occurred (later pairs are
not processed after a failure). -/
def stage_files (workdir : List String) :
    List (List String × List String) → List Effect × Option (List String)
  | [] => ([], none)
  | (host_path, installer_path) :: rest =>
    match relative_to installer_path genconfRoot with
    | none => ([], some installer_path)
    | some rel =>
      let step := Effect.copyFile host_path (workdir ++ ["genconf"] ++ rel)
      let next := stage_files workdir rest
      (step :: next.1, next.2)

/-- A constructed `DCOS_Docker` instance: its working directory parts, its
variable mapping, and the live-logging flag. After `__init__` returns, the
source never assigns to any of these again. -/
structure DCOS_Docker where
  path : List String
  vars : List (String × String)
  log_output_live : Bool
deriving DecidableEq, Repr

/-- Errors out of `DCOS_Docker.__init__`. -/
inductive InitError where
  /-- A `ValueError` from `Path.relative_to`, with the offending path. -/
  | valueError (installer_path : List String)
  /-- A non-conflict `CalledProcessError`, propagated unchanged. -/
  | calledProcess (e : CalledProcessError)
  /-- The `_ConflictingContainerError` re-raised after the retry bound. -/
  | conflictExhausted
deriving DecidableEq, Repr

/-- Embedding of `DCOS_Docker.__init__` (`_dcos_docker.py` lines 30-146):
derive the unique working directory under `tmp_dir_path`, copy the build
material (ignoring the installer artifact) and the installer artifact,
stage the installer-destined files, assemble the variable mapping, and
issue the create lifecycle action through the retry wrapper. The returned
trace lists the effects issued up to the point of return or failure. -/
def dcosDockerInit (yaml_dump : ExtraConfig → String) (random : String)
    (host_storage_driver : String)
    (make_results : Nat → Option CalledProcessError)
    (masters agents public_agents : Nat) (extra_config : ExtraConfig)
    (generate_config_path dcos_docker_path : List String)
    (custom_ca_key : Option (List String)) (log_output_live : Bool)
    (files_to_copy_to_installer : List (List String × List String))
    (tmp_dir_path : List String) : Except InitError DCOS_Docker × List Effect :=
  let path := tmp_dir_path ++ ["dcos-docker-" ++ random]
  let pre :=
    [Effect.copyTreeE dcos_docker_path path,
     Effect.copyFile generate_config_path (path ++ ["dcos_generate_config.sh"])]
  match stage_files path files_to_copy_to_installer with
  | (staged, some bad) => (Except.error (InitError.valueError bad), pre ++ staged)
  | (staged, none) =>
    let vars := clusterVariables yaml_dump masters agents public_agents
      host_storage_driver random extra_config custom_ca_key
    match createContainers vars path make_results with
    | (CreateOutcome.success _ _, tr) =>
      (Except.ok ⟨path, vars, log_output_live⟩, pre ++ staged ++ tr)
    | (CreateOutcome.fatal e _ _, tr) =>
      (Except.error (InitError.calledProcess e), pre ++ staged ++ tr)
    | (CreateOutcome.exhausted _ _, tr) =>
      (Except.error InitError.conflictExhausted, pre ++ staged ++ tr)

/-- Method `DCOS_Docker.postflight` (`_dcos_docker.py` lines 197-201): a single
`make ... postflight` invocation whose failure propagates unchanged.
`make_result` is the oracle outcome of that invocation. -/
def postflightRun (c : DCOS_Docker) (make_result : Option CalledProcessError) :
    Except CalledProcessError Unit × List Effect :=
  (match make_result with
   | none => Except.ok ()
   | some e => Except.error e,
   [Effect.runProc (makeArgs c.vars "postflight") (some c.path)])

/-- The outcome of `shutil.rmtree(path, ignore_errors)` when the underlying
removal fails iff `removal_fails`: an `OSError` is raised (modelled as
`some ()`) exactly when the removal fails and errors are not ignored. -/
def rmtreeRun (removal_fails ignore_errors : Bool) : Option Unit :=
  if removal_fails && !ignore_errors then some () else none

/-- Errors out of `DCOS_Docker.destroy`. -/
inductive DestroyError where
  | make (e : CalledProcessError)
  | removal
deriving DecidableEq, Repr

/-- Method `DCOS_Docker.destroy` (`_dcos_docker.py` lines 203-213): run
`make ... clean`, then `rmtree(self._path, ignore_errors=True)`. A `make`
failure propagates before any removal is attempted; the removal is issued
with `ignore_errors := true`, so the `removal` error branch is unreachable
whatever `removal_fails` is. -/
def destroyRun (c : DCOS_Docker) (make_result : Option CalledProcessError)
    (removal_fails : Bool) : Except DestroyError Unit × List Effect :=
  match make_result with
  | some e =>
    (Except.error (DestroyError.make e),
     [Effect.runProc (makeArgs c.vars "clean") (some c.path)])
  | none =>
    let tr :=
      [Effect.runProc (makeArgs c.vars "clean") (some c.path),
       Effect.rmtree c.path true]
    match rmtreeRun removal_fails true with
    | some _ => (Except.error DestroyError.removal, tr)
    | none => (Except.ok (), tr)

/-- The loop of `DCOS_Docker._nodes` (`_dcos_docker.py` lines 224-240).
`containers name` is the docker inventory: the inspected IP address of the
container with exactly that name, or `none` when `containers.get` raises
`NotFound` (which propagates out of the loop, reported as the missing
name). The Python `Node` class defines no value equality, so `nodes.add`
grows the set by one on every iteration; the set is embedded as the list of
nodes in construction order and the fuel is the number of nodes still to
construct. -/
def nodesGo (containers : String → Option String) (container_base_name : String)
    (key : List String) : Nat → List Node → Except String (List Node)
  | 0, acc => Except.ok acc
  | fuel + 1, acc =>
    let name := container_base_name ++ toString (acc.length + 1)
    match containers name with
    | none => Except.error name
    | some ip => nodesGo containers container_base_name key fuel (acc ++ [⟨ip, key⟩])

/-- Method `DCOS_Docker._nodes` (`_dcos_docker.py` lines 215-240): resolve
`num_nodes` nodes named `container_base_name`1, 2, ... , each holding the
inspected IP address of the container and the key path
`self._path / include / ssh / id_rsa`. -/
def clusterNodes (containers : String → Option String) (c : DCOS_Docker)
    (container_base_name : String) (num_nodes : Nat) : Except String (List Node) :=
  nodesGo containers container_base_name (c.path ++ ["include", "ssh", "id_rsa"])
    num_nodes []

/-- Accessor `DCOS_Docker.masters` (`_dcos_docker.py` lines 242-250): `_nodes` on the
`MASTER_CTR` prefix and the parsed `MASTERS` count. -/
def mastersNodes (containers : String → Option String) (c : DCOS_Docker) :
    Except String (List Node) :=
  clusterNodes containers c ((List.lookup "MASTER_CTR" c.vars).getD "")
    ((((List.lookup "MASTERS" c.vars).getD "").toNat?).getD 0)

/-- Accessor `DCOS_Docker.agents` (`_dcos_docker.py` lines 252-260). -/
def agentsNodes (containers : String → Option String) (c : DCOS_Docker) :
    Except String (List Node) :=
  clusterNodes containers c ((List.lookup "AGENT_CTR" c.vars).getD "")
    ((((List.lookup "AGENTS" c.vars).getD "").toNat?).getD 0)

/-- Accessor `DCOS_Docker.public_agents` (`_dcos_docker.py` lines 262-270). -/
def publicAgentsNodes (containers : String → Option String) (c : DCOS_Docker) :
    Except String (List Node) :=
  clusterNodes containers c ((List.lookup "PUBLIC_AGENT_CTR" c.vars).getD "")
    ((((List.lookup "PUBLIC_AGENTS" c.vars).getD "").toNat?).getD 0)


/-- The single-quote character, written out so no quote literal appears in
the source text of the export fragment below. -/
def squote : String := String.singleton (Char.ofNat 39)

/-- The exported-assignment fragment of `node.py` line 56: the word export,
the key, an equals sign, and the single-quoted value. -/
def export_fragment (key value : String) : String :=
  "export " ++ key ++ "=" ++ squote ++ value ++ squote

/-- Method `Node.compose_ssh_command` (`node.py` lines 33-83): take a defensive
copy of `env` (default empty on `None`), build `command` by appending, for
each environment pair in mapping order, the export fragment and the `&&`
joiner, extend it with `args`, and return the fixed `ssh` wrapper followed
by that command. Pure construction; no effect is issued. -/
def compose_ssh_command (ip_address : String) (ssh_key_path : List String)
    (args : List String) (env : Option (List (String × String))) : List String :=
  let env := (env.getD [])
  let command : List String :=
    env.foldl (fun command kv => command ++ [export_fragment kv.1 kv.2, "&&"]) []
  let command := command ++ args
  ["ssh",
   "-q",
   "-o", "StrictHostKeyChecking=no",
   "-i", pathStr ssh_key_path,
   "-l", "root",
   "-o", "PreferredAuthentications=publickey",
   ip_address] ++ command

/-- Python runtime errors raised by the file-transfer methods before any
transfer is attempted. -/
inductive PyRuntimeError where
  /-- A `NameError`: the given name is not defined in any enclosing scope. -/
  | nameError (name : String)
  /-- An `AssertionError` from a failed `assert`. -/
  | assertionError
deriving DecidableEq, Repr

/-- Method `Node.scp` (`node.py` lines 132-145). After the source assertion
the method builds the `scp_cmd` list; its elements are evaluated in order
and the element `str(node._ssh_key_path)` is reached first among those that
mention an undefined name — `node` is bound nowhere (the parameters are
`self`, `source_path`, `dst_path`, and no module-level `node` exists), so
`NameError: node` is raised before any subprocess is started. `source_path`
and `dst_path` are otherwise unused, so the outcome depends only on whether
the source exists. -/
def scpRun (source_path_exists : Bool) : Except PyRuntimeError (List Effect) :=
  if source_path_exists then
    Except.error (PyRuntimeError.nameError "node")
  else Except.error PyRuntimeError.assertionError

/-- Method `Node.scp2` (`node.py` lines 147-162). After the source assertion
and the local construction of a paramiko client, the call
`ssh_client.connect(str(node.ip_address), ...)` evaluates its arguments
first and `node` is again an undefined name, so `NameError: node` is raised
before any connection is opened (`closing` and `Write` on line 158 are also
undefined, but are never reached). -/
def scp2Run (source_exists : Bool) : Except PyRuntimeError (List Effect) :=
  if source_exists then
    Except.error (PyRuntimeError.nameError "node")
  else Except.error PyRuntimeError.assertionError

/-- A Python object relevant to the aliasing properties: a list of strings,
a string-valued mapping, or a path-valued mapping. -/
inductive PyObj where
  | strList (l : List String)
  | strDict (d : List (String × String))
  | pathDict (d : List (List String × List String))
deriving DecidableEq, Repr

/-- The list payload of an object (lists only). -/
def PyObj.asList : PyObj → List String
  | PyObj.strList l => l
  | _ => []

/-- The string-mapping payload of an object (string dictionaries only). -/
def PyObj.asDict : PyObj → List (String × String)
  | PyObj.strDict d => d
  | _ => []

/-- The path-mapping payload of an object (path dictionaries only). -/
def PyObj.asPathDict : PyObj → List (List String × List String)
  | PyObj.pathDict d => d
  | _ => []

/-- A heap of Python objects addressed by allocation order: `store` maps an
address to its object and `next` is the next fresh address. Caller-visible
objects live at addresses below `next`. -/
structure Heap where
  store : Nat → PyObj
  next : Nat

/-- In-place mutation of the object at address `a`. -/
def Heap.write (h : Heap) (a : Nat) (v : PyObj) : Heap :=
  ⟨fun x => if x = a then v else h.store x, h.next⟩

/-- Allocation of a fresh object, returning the new heap and the address. -/
def Heap.alloc (h : Heap) (v : PyObj) : Heap × Nat :=
  (⟨fun x => if x = h.next then v else h.store x, h.next + 1⟩, h.next)

/-- Heap-level embedding of `Node.compose_ssh_command` (`node.py` lines
33-83), statement by statement. `args_ref` is the address of the argument
list of the caller and `env_ref` the address of its environment mapping
(`none` when the default `None` is passed). The body rebinds the local name
`env` to a fresh copy, an emptied-default dict call, builds the local `command` list
in a fresh cell (`command = []`, the `append` calls, and the in-place
`command += args` all write that cell only), allocates the literal
`ssh_args` list, and returns its address; no statement writes to
`args_ref` or `env_ref`. -/
def composeSshCommandHeap (ip_address : String) (ssh_key_path : List String)
    (h : Heap) (args_ref : Nat) (env_ref : Option Nat) : Heap × Nat :=
  let envVal : List (String × String) :=
    match env_ref with
    | none => []
    | some r => (h.store r).asDict
  let (h, envCopy) := h.alloc (PyObj.strDict envVal)
  let (h, command) := h.alloc (PyObj.strList [])
  let h := h.write command (PyObj.strList
    (((h.store envCopy).asDict).foldl
      (fun acc kv => acc ++ [export_fragment kv.1 kv.2, "&&"]) []))
  let h := h.write command (PyObj.strList
    (((h.store command).asList) ++ (h.store args_ref).asList))
  let (h, ssh_args) := h.alloc (PyObj.strList
    (["ssh",
      "-q",
      "-o", "StrictHostKeyChecking=no",
      "-i", pathStr ssh_key_path,
      "-l", "root",
      "-o", "PreferredAuthentications=publickey",
      ip_address] ++ (h.store command).asList))
  (h, ssh_args)

/-- Method `Node.run_as_root` (`node.py` lines 85-110): compose the invocation and
execute it through `run_subprocess` with no working directory. -/
def runAsRootHeap (ip_address : String) (ssh_key_path : List String)
    (h : Heap) (args_ref : Nat) (env_ref : Option Nat) : Heap × Effect :=
  let (h, ssh_args) := composeSshCommandHeap ip_address ssh_key_path h args_ref env_ref
  (h, Effect.runProc ((h.store ssh_args).asList) none)

/-- Method `Node.popen_as_root` (`node.py` lines 112-130): compose the invocation
and start it through `subprocess.Popen`. -/
def popenAsRootHeap (ip_address : String) (ssh_key_path : List String)
    (h : Heap) (args_ref : Nat) (env_ref : Option Nat) : Heap × Effect :=
  let (h, ssh_args) := composeSshCommandHeap ip_address ssh_key_path h args_ref env_ref
  (h, Effect.spawnProc ((h.store ssh_args).asList))

/-- Class `DCOS_Docker_Backend` (`_dcos_docker.py` lines 273-295): the three fixed
paths held by the factory. -/
structure DCOS_Docker_Backend where
  generate_config_path : List String
  dcos_docker_path : List String
  tmp_dir_path : List String
deriving DecidableEq, Repr

/-- The argument record with which `DCOS_Docker_Backend.create` invokes the
`DCOS_Docker` constructor. The two mapping arguments are heap addresses. -/
structure InitCall where
  masters : Nat
  agents : Nat
  public_agents : Nat
  extra_config_ref : Nat
  generate_config_path : List String
  dcos_docker_path : List String
  custom_ca_key : Option (List String)
  log_output_live : Bool
  files_ref : Nat
  tmp_dir_path : List String

/-- Method `DCOS_Docker_Backend.create` (`_dcos_docker.py` lines 297-334): forward
the topology counts, CA key and logging flag unchanged, add the three
three fixed paths, and pass dict copies of `extra_config` and
`files_to_copy_to_installer` — fresh copies of the two caller
mappings, empty when `None` is passed. -/
def backendCreate (b : DCOS_Docker_Backend) (h : Heap)
    (masters agents public_agents : Nat) (extra_config_ref : Option Nat)
    (custom_ca_key : Option (List String)) (log_output_live : Bool)
    (files_ref : Option Nat) : Heap × InitCall :=
  let extraVal : List (String × String) :=
    match extra_config_ref with
    | none => []
    | some r => (h.store r).asDict
  let filesVal : List (List String × List String) :=
    match files_ref with
    | none => []
    | some r => (h.store r).asPathDict
  let (h, extraCopy) := h.alloc (PyObj.strDict extraVal)
  let (h, filesCopy) := h.alloc (PyObj.pathDict filesVal)
  (h,
   { masters := masters,
     agents := agents,
     public_agents := public_agents,
     extra_config_ref := extraCopy,
     generate_config_path := b.generate_config_path,
     dcos_docker_path := b.dcos_docker_path,
     custom_ca_key := custom_ca_key,
     log_output_live := log_output_live,
     files_ref := filesCopy,
     tmp_dir_path := b.tmp_dir_path })

/-- The parameter set the constructor derives from an `InitCall`, reading
the extra-config mapping from the heap. -/
def callParameterSet (yaml_dump : ExtraConfig → String)
    (host_storage_driver random : String) (h : Heap) (c : InitCall) :
    List (String × String) :=
  clusterVariables yaml_dump c.masters c.agents c.public_agents
    host_storage_driver random ((h.store c.extra_config_ref).asDict)
    c.custom_ca_key

/-- The staged installer-file copies the constructor derives from an
`InitCall`, reading the files mapping from the heap. -/
def callStagedFiles (random : String) (h : Heap) (c : InitCall) :
    List Effect × Option (List String) :=
  stage_files (c.tmp_dir_path ++ ["dcos-docker-" ++ random])
    ((h.store c.files_ref).asPathDict)


/-! ## Concrete instances used by witnesses and counterexamples -/

/-- A concrete constructed cluster record. -/
def demoCluster : DCOS_Docker := ⟨["/", "tmp", "w"], [], false⟩

/-- A docker inventory whose containers m1 and m2 both exist and both report
the same inspected IP address. -/
def containersDupDemo : String → Option String := fun name =>
  if name = "m1" ∨ name = "m2" then some "172.17.0.2" else none

/-- A docker inventory whose containers m1 and m2 exist with distinct IP
addresses. -/
def containersTwoDemo : String → Option String := fun name =>
  if name = "m1" then some "10.0.0.1"
  else if name = "m2" then some "10.0.0.2"
  else none

/-- A process failure carrying a name-conflict signature. -/
def conflictDemoError : CalledProcessError :=
  ⟨"docker: Conflict. The container name /dcos-installer is in use", ""⟩

/-- A process failure without any conflict signature. -/
def plainDemoError : CalledProcessError := ⟨"boom", "no such target"⟩

/-- Make-invocation outcomes: a conflict on the first attempt, then success. -/
def mrConflictOnceDemo : Nat → Option CalledProcessError := fun i =>
  if i = 0 then some conflictDemoError else none

/-- Make-invocation outcomes: conflicts on the first two attempts, then
success. -/
def mrConflictTwiceDemo : Nat → Option CalledProcessError := fun i =>
  if i < 2 then some conflictDemoError else none

/-- A demo variable mapping and working directory for create runs. -/
def varsDemo : List (String × String) := [("MASTERS", "1")]

/-- A demo working directory for create runs. -/
def cwdDemo : List String := ["/", "w"]

/-- A heap with a caller argument list at address 0 and a caller environment
mapping at address 1. -/
def heapDemo : Heap :=
  ⟨fun n => if n = 0 then PyObj.strList ["echo", "x"] else PyObj.strDict [("A", "B")], 2⟩

/-- A heap with a caller extra-config mapping at address 0 and a caller
files mapping at address 1. -/
def heapDemo2 : Heap :=
  ⟨fun n =>
    if n = 0 then PyObj.strDict [("k", "v")]
    else PyObj.pathDict [(["/", "h", "a"], ["/", "genconf", "a"])], 2⟩

/-- A concrete backend factory. -/
def backendDemo : DCOS_Docker_Backend := ⟨["/", "gc"], ["/", "dd"], ["/", "tmp"]⟩

/-- A caller-supplied installer-file mapping whose destination lies under
`/genconf`. -/
def filesOkDemo : List (List String × List String) :=
  [(["/", "h", "a"], ["/", "genconf", "a"])]

/-- A caller-supplied installer-file mapping whose destination lies outside
`/genconf`. -/
def filesBadDemo : List (List String × List String) :=
  [(["/", "h", "a"], ["/", "etc", "a"])]

/-! ## Helper lemmas -/

theorem Heap.alloc_store_self (h : Heap) (v : PyObj) :
    (h.alloc v).1.store (h.alloc v).2 = v := by
  simp [Heap.alloc]

theorem Heap.alloc_store_old (h : Heap) (v : PyObj) (x : Nat) (hx : x ≠ h.next) :
    (h.alloc v).1.store x = h.store x := by
  simp [Heap.alloc, hx]

theorem Heap.write_store_other (h : Heap) (a : Nat) (v : PyObj) (x : Nat)
    (hx : x ≠ a) : (h.write a v).store x = h.store x := by
  simp [Heap.write, hx]

theorem foldl_export_append (env : List (String × String)) :
    ∀ init : List String,
      env.foldl (fun command kv => command ++ [export_fragment kv.1 kv.2, "&&"]) init =
        init ++ env.flatMap (fun kv => [export_fragment kv.1 kv.2, "&&"]) := by
  induction env with
  | nil => intro init; simp
  | cons kv rest ih => intro init; simp [List.foldl_cons, ih]

theorem createGo_ok (vars : List (String × String)) (cwd : List String)
    (mr : Nat → Option CalledProcessError) (attempt delay : Nat)
    (tr : List Effect) (fuel : Nat) (h : mr attempt = none) :
    createGo vars cwd mr attempt delay tr (fuel + 1) =
      (CreateOutcome.success (attempt + 1) delay,
       tr ++ [Effect.runProc (makeArgs vars "all") (some cwd)]) := by
  simp [createGo, h]

theorem createGo_fatal (vars : List (String × String)) (cwd : List String)
    (mr : Nat → Option CalledProcessError) (attempt delay : Nat)
    (tr : List Effect) (fuel : Nat) (e : CalledProcessError)
    (h : mr attempt = some e) (hc : isConflictError e = false) :
    createGo vars cwd mr attempt delay tr (fuel + 1) =
      (CreateOutcome.fatal e (attempt + 1) delay,
       tr ++ [Effect.runProc (makeArgs vars "all") (some cwd)]) := by
  simp [createGo, h, hc]

theorem createGo_conflict_step (vars : List (String × String)) (cwd : List String)
    (mr : Nat → Option CalledProcessError) (attempt delay : Nat)
    (tr : List Effect) (fuel : Nat) (e : CalledProcessError)
    (h : mr attempt = some e) (hc : isConflictError e = true) :
    createGo vars cwd mr attempt delay tr (fuel + 2) =
      createGo vars cwd mr (attempt + 1) (delay + 10)
        (tr ++ [Effect.runProc (makeArgs vars "all") (some cwd)]) (fuel + 1) := by
  simp [createGo, h, hc]

theorem createGo_conflict_last (vars : List (String × String)) (cwd : List String)
    (mr : Nat → Option CalledProcessError) (attempt delay : Nat)
    (tr : List Effect) (e : CalledProcessError)
    (h : mr attempt = some e) (hc : isConflictError e = true) :
    createGo vars cwd mr attempt delay tr 1 =
      (CreateOutcome.exhausted (attempt + 1) delay,
       tr ++ [Effect.runProc (makeArgs vars "all") (some cwd)]) := by
  show createGo vars cwd mr attempt delay tr (0 + 1) = _
  simp [createGo, h, hc]

theorem createGo_exhaust (vars : List (String × String)) (cwd : List String)
    (mr : Nat → Option CalledProcessError) :
    ∀ (fuel attempt delay : Nat) (tr : List Effect),
      (∀ i, attempt ≤ i → i < attempt + (fuel + 1) →
        ∃ e, mr i = some e ∧ isConflictError e = true) →
      (createGo vars cwd mr attempt delay tr (fuel + 1)).1 =
        CreateOutcome.exhausted (attempt + fuel + 1) (delay + 10 * fuel) := by
  intro fuel
  induction fuel with
  | zero =>
    intro attempt delay tr hall
    obtain ⟨e, he, hc⟩ := hall attempt (Nat.le_refl _) (by omega)
    rw [createGo_conflict_last vars cwd mr attempt delay tr e he hc]
    simp
  | succ k ih =>
    intro attempt delay tr hall
    obtain ⟨e, he, hc⟩ := hall attempt (Nat.le_refl _) (by omega)
    rw [createGo_conflict_step vars cwd mr attempt delay tr k e he hc]
    have := ih (attempt + 1) (delay + 10)
      (tr ++ [Effect.runProc (makeArgs vars "all") (some cwd)])
      (fun i h1 h2 => hall i (by omega) (by omega))
    rw [this]
    congr 1 <;> omega

theorem createGo_success_mr (vars : List (String × String)) (cwd : List String)
    (mr : Nat → Option CalledProcessError) :
    ∀ (fuel attempt delay : Nat) (tr : List Effect) (n d : Nat),
      (createGo vars cwd mr attempt delay tr fuel).1 = CreateOutcome.success n d →
      mr (n - 1) = none := by
  intro fuel
  induction fuel with
  | zero =>
    intro attempt delay tr n d hsucc
    simp [createGo] at hsucc
  | succ k ih =>
    intro attempt delay tr n d hsucc
    cases hm : mr attempt with
    | none =>
      rw [createGo_ok vars cwd mr attempt delay tr k hm] at hsucc
      simp at hsucc
      obtain ⟨hn, -⟩ := hsucc
      simpa [← hn] using hm
    | some e =>
      cases hc : isConflictError e with
      | false =>
        rw [createGo_fatal vars cwd mr attempt delay tr k e hm hc] at hsucc
        simp at hsucc
      | true =>
        cases k with
        | zero =>
          rw [createGo_conflict_last vars cwd mr attempt delay tr e hm hc] at hsucc
          simp at hsucc
        | succ k2 =>
          rw [createGo_conflict_step vars cwd mr attempt delay tr k2 e hm hc] at hsucc
          exact ih _ _ _ _ _ hsucc

theorem createGo_trace_runProc (vars : List (String × String)) (cwd : List String)
    (mr : Nat → Option CalledProcessError) :
    ∀ (fuel attempt delay : Nat) (tr : List Effect),
      (∀ ef ∈ tr, ef = Effect.runProc (makeArgs vars "all") (some cwd)) →
      ∀ ef ∈ (createGo vars cwd mr attempt delay tr fuel).2,
        ef = Effect.runProc (makeArgs vars "all") (some cwd) := by
  intro fuel
  induction fuel with
  | zero =>
    intro attempt delay tr htr
    simpa [createGo] using htr
  | succ k ih =>
    intro attempt delay tr htr
    have htr2 : ∀ ef ∈ tr ++ [Effect.runProc (makeArgs vars "all") (some cwd)],
        ef = Effect.runProc (makeArgs vars "all") (some cwd) := by
      intro ef hef
      rcases List.mem_append.mp hef with h | h
      · exact htr ef h
      · simpa using h
    cases hm : mr attempt with
    | none =>
      rw [createGo_ok vars cwd mr attempt delay tr k hm]
      exact htr2
    | some e =>
      cases hc : isConflictError e with
      | false =>
        rw [createGo_fatal vars cwd mr attempt delay tr k e hm hc]
        exact htr2
      | true =>
        cases k with
        | zero =>
          rw [createGo_conflict_last vars cwd mr attempt delay tr e hm hc]
          exact htr2
        | succ k2 =>
          rw [createGo_conflict_step vars cwd mr attempt delay tr k2 e hm hc]
          exact ih _ _ _ htr2

theorem stage_files_all_ok (workdir : List String) :
    ∀ files : List (List String × List String),
      (∀ pr ∈ files, (relative_to pr.2 genconfRoot).isSome) →
      stage_files workdir files =
        (files.map (fun pr =>
          Effect.copyFile pr.1
            (workdir ++ ["genconf"] ++ (relative_to pr.2 genconfRoot).getD [])),
         none) := by
  intro files
  induction files with
  | nil => intro _; simp [stage_files]
  | cons pr rest ih =>
    intro hall
    obtain ⟨rel, hrel⟩ :=
      Option.isSome_iff_exists.mp (hall pr (List.mem_cons_self pr rest))
    have hrest := ih (fun q hq => hall q (List.mem_cons_of_mem pr hq))
    cases pr with
    | mk host_path installer_path =>
      simp only [stage_files, hrel, hrest]
      simp [hrel]

theorem stage_files_err (workdir : List String) :
    ∀ files : List (List String × List String),
      (∃ pr ∈ files, relative_to pr.2 genconfRoot = none) →
      ∃ q, relative_to q genconfRoot = none ∧
        (stage_files workdir files).2 = some q := by
  intro files
  induction files with
  | nil => intro h; simp at h
  | cons pr rest ih =>
    intro h
    cases hrel : relative_to pr.2 genconfRoot with
    | none =>
      refine ⟨pr.2, hrel, ?_⟩
      cases pr with
      | mk host_path installer_path => simp [stage_files, hrel] at hrel ⊢
    | some rel =>
      obtain ⟨q, hq, hqnone⟩ := h
      have hqrest : q ∈ rest := by
        rcases List.mem_cons.mp hq with rfl | h2
        · rw [hrel] at hqnone; cases hqnone
        · exact h2
      obtain ⟨q2, hq2, hq2eq⟩ := ih ⟨q, hqrest, hqnone⟩
      refine ⟨q2, hq2, ?_⟩
      cases pr with
      | mk host_path installer_path =>
        simp [stage_files, hrel, hq2eq]

theorem nodesGo_ok (containers : String → Option String)
    (container_base_name : String) (key : List String) :
    ∀ (fuel : Nat) (acc : List Node),
      (∀ i, acc.length + 1 ≤ i → i ≤ acc.length + fuel →
        (containers (container_base_name ++ toString i)).isSome) →
      nodesGo containers container_base_name key fuel acc =
        Except.ok (acc ++ (List.range' (acc.length + 1) fuel).map (fun i =>
          ⟨(containers (container_base_name ++ toString i)).getD "", key⟩)) := by
  intro fuel
  induction fuel with
  | zero => intro acc _; simp [nodesGo]
  | succ k ih =>
    intro acc hall
    obtain ⟨ip, hip⟩ := Option.isSome_iff_exists.mp
      (hall (acc.length + 1) (Nat.le_refl _) (by omega))
    have hrec := ih (acc ++ [⟨ip, key⟩]) (by
      intro i h1 h2
      simp at h1 h2
      exact hall i (by omega) (by omega))
    simp only [nodesGo, hip, hrec]
    simp [List.range'_succ, hip]

theorem nodesGo_err (containers : String → Option String)
    (container_base_name : String) (key : List String) :
    ∀ (fuel : Nat) (acc : List Node) (j : Nat),
      acc.length + 1 ≤ j → j ≤ acc.length + fuel →
      (∀ i, acc.length + 1 ≤ i → i < j →
        (containers (container_base_name ++ toString i)).isSome) →
      containers (container_base_name ++ toString j) = none →
      nodesGo containers container_base_name key fuel acc =
        Except.error (container_base_name ++ toString j) := by
  intro fuel
  induction fuel with
  | zero => intro acc j h1 h2 _ _; omega
  | succ k ih =>
    intro acc j h1 h2 hbefore hj
    by_cases hjfirst : j = acc.length + 1
    · subst hjfirst
      simp [nodesGo, hj]
    · obtain ⟨ip, hip⟩ := Option.isSome_iff_exists.mp
        (hbefore (acc.length + 1) (Nat.le_refl _) (by omega))
      have hrec := ih (acc ++ [⟨ip, key⟩]) j (by simp; omega) (by simp; omega)
        (by
          intro i hi1 hi2
          simp at hi1
          exact hbefore i (by omega) hi2)
        hj
      simp only [nodesGo, hip, hrec]

/-! ## Claim theorems -/

/-- C3: for every address, credential path, non-empty argument vector and
environment mapping, the composed remote invocation is exactly the `ssh`
wrapper — quiet mode, host-key checking disabled, the credential via `-i`,
login as `root` via `-l`, authentication restricted to public keys —
followed by one exported-assignment fragment and an `&&` joiner per
environment pair in mapping order, followed by `args` verbatim. The
composition is a pure function: it issues no effect. -/
theorem compose_ssh_command_shape (ip_address : String) (ssh_key_path : List String)
    (args : List String) (env : List (String × String)) (hargs : args ≠ []) :
    compose_ssh_command ip_address ssh_key_path args (some env) =
      ["ssh", "-q", "-o", "StrictHostKeyChecking=no", "-i", pathStr ssh_key_path,
       "-l", "root", "-o", "PreferredAuthentications=publickey", ip_address] ++
      env.flatMap (fun kv => [export_fragment kv.1 kv.2, "&&"]) ++ args := by
  simp [compose_ssh_command, foldl_export_append]

/-- Witness for C3 at a concrete address, key, argument vector and
single-entry environment. -/
theorem compose_ssh_command_shape_witness :
    compose_ssh_command "10.0.0.1" ["/", "k"] ["echo", "x"] (some [("A", "B")]) =
      ["ssh", "-q", "-o", "StrictHostKeyChecking=no", "-i", pathStr ["/", "k"],
       "-l", "root", "-o", "PreferredAuthentications=publickey", "10.0.0.1"] ++
      [("A", "B")].flatMap (fun kv => [export_fragment kv.1 kv.2, "&&"]) ++
      ["echo", "x"] :=
  compose_ssh_command_shape "10.0.0.1" ["/", "k"] ["echo", "x"] [("A", "B")]
    (by simp)

/-- C8: the `DOCKER_STORAGEDRIVER` entry of the parameter set assembled at
construction equals the reported host storage driver whenever that driver
is `overlay` or `aufs`, and equals the fallback `aufs` for every other
reported value. -/
theorem storage_driver_choice_spec (yaml_dump : ExtraConfig → String)
    (masters agents public_agents : Nat) (host random : String)
    (extra_config : ExtraConfig) (custom_ca_key : Option (List String)) :
    (host = "overlay" ∨ host = "aufs" →
      List.lookup "DOCKER_STORAGEDRIVER"
        (clusterVariables yaml_dump masters agents public_agents host random
          extra_config custom_ca_key) = some host) ∧
    (host ≠ "overlay" → host ≠ "aufs" →
      List.lookup "DOCKER_STORAGEDRIVER"
        (clusterVariables yaml_dump masters agents public_agents host random
          extra_config custom_ca_key) = some "aufs") := by
  have hhead : List.lookup "DOCKER_STORAGEDRIVER"
      (clusterVariables yaml_dump masters agents public_agents host random
        extra_config custom_ca_key) = some (chooseStorageDriver host) := by
    simp [clusterVariables, List.lookup]
  constructor
  · rintro (rfl | rfl) <;> simpa [chooseStorageDriver] using hhead
  · intro h1 h2
    have hc : chooseStorageDriver host = "aufs" := by
      simp [chooseStorageDriver, supported_storage_drivers]
      rintro (rfl | rfl)
      · exact absurd rfl h1
      · rfl
    rw [hhead, hc]

/-- Witness for C8 at the unsupported host driver `devicemapper`. -/
theorem storage_driver_choice_spec_witness :
    List.lookup "DOCKER_STORAGEDRIVER"
      (clusterVariables (fun _ => "") 1 0 0 "devicemapper" "r" [] none) =
      some "aufs" :=
  (storage_driver_choice_spec (fun _ => "") 1 0 0 "devicemapper" "r" [] none).2
    (by decide) (by decide)

/-- C4 (code bug): both file-transfer strategies are broken. With an
existing local source file, `Node.scp` raises `NameError` for the undefined
name `node` while building its copy invocation, and `Node.scp2` raises the
same `NameError` while evaluating the arguments of its connect call; neither
ever transfers a byte (and with a missing source both fail the initial
assertion instead). This contradicts the claim that either strategy
transfers the source file to the destination on the node. -/
theorem scp_name_error_bug :
    scpRun true = Except.error (PyRuntimeError.nameError "node") ∧
    scp2Run true = Except.error (PyRuntimeError.nameError "node") ∧
    scpRun false = Except.error PyRuntimeError.assertionError ∧
    scp2Run false = Except.error PyRuntimeError.assertionError :=
  ⟨rfl, rfl, rfl, rfl⟩

/-- C1 (amended): for a role with container-name base `P` and requested
count `N`, `_nodes` queries the containers named `P1 .. PN` in order. When
every one of them exists and is inspectable, it returns exactly `N` node
records — never a partial set and never more than `N` — one per container,
each carrying the inspected IP address of that container and the SSH key path
`<workingDirectory>/include/ssh/id_rsa`. When a container is missing, the
lookup failure for the first missing name propagates immediately instead of
blocking; and the returned IP addresses are pairwise distinct only insofar
as the inspected container addresses are (see the counterexample). -/
theorem nodes_resolution_amended (containers : String → Option String)
    (c : DCOS_Docker) (base : String) (n : Nat) :
    ((∀ i, 1 ≤ i → i ≤ n → (containers (base ++ toString i)).isSome) →
      clusterNodes containers c base n =
        Except.ok ((List.range' 1 n).map (fun i =>
          ⟨(containers (base ++ toString i)).getD "",
           c.path ++ ["include", "ssh", "id_rsa"]⟩))) ∧
    (∀ j, 1 ≤ j → j ≤ n →
      (∀ i, 1 ≤ i → i < j → (containers (base ++ toString i)).isSome) →
      containers (base ++ toString j) = none →
      clusterNodes containers c base n = Except.error (base ++ toString j)) := by
  constructor
  · intro hall
    have h := nodesGo_ok containers base (c.path ++ ["include", "ssh", "id_rsa"])
      n [] (by simpa using hall)
    simpa [clusterNodes] using h
  · intro j h1 h2 hbefore hj
    have h := nodesGo_err containers base (c.path ++ ["include", "ssh", "id_rsa"])
      n [] j (by simpa using h1) (by simpa using h2) (by simpa using hbefore) hj
    simpa [clusterNodes] using h

/-- Witness for C1 (amended) at a two-container inventory with distinct
addresses. -/
theorem nodes_resolution_amended_witness :
    clusterNodes containersTwoDemo demoCluster "m" 2 =
      Except.ok ((List.range' 1 2).map (fun i =>
        ⟨(containersTwoDemo ("m" ++ toString i)).getD "",
         demoCluster.path ++ ["include", "ssh", "id_rsa"]⟩)) :=
  (nodes_resolution_amended containersTwoDemo demoCluster "m" 2).1 (by
    intro i hl hu
    interval_cases i <;> decide)

/-- C1 counterexample: the containers m1 and m2 both exist and are
inspectable, but report the same IP address; `_nodes` then returns two node
records whose IP addresses are equal, refuting the claim that the role
accessor always returns node records with pairwise-distinct IP addresses. -/
theorem nodes_duplicate_ip_counterexample :
    clusterNodes containersDupDemo demoCluster "m" 2 =
      Except.ok [⟨"172.17.0.2", ["/", "tmp", "w", "include", "ssh", "id_rsa"]⟩,
                 ⟨"172.17.0.2", ["/", "tmp", "w", "include", "ssh", "id_rsa"]⟩] ∧
    containersDupDemo "m1" = some "172.17.0.2" ∧
    containersDupDemo "m2" = some "172.17.0.2" ∧
    ¬ ([(⟨"172.17.0.2", ["/", "tmp", "w", "include", "ssh", "id_rsa"]⟩ : Node),
        ⟨"172.17.0.2", ["/", "tmp", "w", "include", "ssh", "id_rsa"]⟩].Pairwise
        (fun x y => x.ip_address ≠ y.ip_address)) := by
  refine ⟨rfl, rfl, rfl, ?_⟩
  simp

/-- C2: the create action is retried exactly when the concatenation of the
error text and output text of the failure carries one of the two conflict
signatures. A first-attempt failure without a signature is propagated
unchanged after a single invocation with no delay; a first-attempt conflict
is retried after a 10-unit delay (two invocations when the second attempt
succeeds); and when every one of the 30 bounded attempts fails with a
conflict, the run stops after exactly 30 attempts and 290 delay units,
surfacing the last conflict as a fatal error. -/
theorem create_retry_conflict_policy (vars : List (String × String))
    (cwd : List String) (mr : Nat → Option CalledProcessError) :
    (∀ e, mr 0 = some e → isConflictError e = false →
      createContainers vars cwd mr =
        (CreateOutcome.fatal e 1 0,
         [Effect.runProc (makeArgs vars "all") (some cwd)])) ∧
    (∀ e, mr 0 = some e → isConflictError e = true → mr 1 = none →
      createContainers vars cwd mr =
        (CreateOutcome.success 2 10,
         [Effect.runProc (makeArgs vars "all") (some cwd),
          Effect.runProc (makeArgs vars "all") (some cwd)])) ∧
    ((∀ i, i < 30 → ∃ e, mr i = some e ∧ isConflictError e = true) →
      (createContainers vars cwd mr).1 = CreateOutcome.exhausted 30 290) ∧
    (∀ e, isConflictError e =
      (strContains (e.stderr ++ e.stdout) conflict_error_substring ||
       strContains (e.stderr ++ e.stdout) other_conflict_error_substring)) := by
  refine ⟨?_, ?_, ?_, fun e => rfl⟩
  · intro e h0 hc
    have h := createGo_fatal vars cwd mr 0 0 [] 29 e h0 hc
    simpa [createContainers] using h
  · intro e h0 hc h1
    have s1 : createGo vars cwd mr 0 0 [] 30 =
        createGo vars cwd mr 1 10
          [Effect.runProc (makeArgs vars "all") (some cwd)] 29 := by
      simpa using createGo_conflict_step vars cwd mr 0 0 [] 28 e h0 hc
    have s2 := createGo_ok vars cwd mr 1 10
      [Effect.runProc (makeArgs vars "all") (some cwd)] 28 h1
    show createGo vars cwd mr 0 0 [] 30 = _
    rw [s1]
    simpa using s2
  · intro hall
    have h := createGo_exhaust vars cwd mr 29 0 0 []
      (fun i hi1 hi2 => hall i (by omega))
    simpa [createContainers] using h

/-- Witness for C2: a conflict-signature failure on the first attempt and a
clean second attempt yield success after two identical invocations and one
10-unit delay. -/
theorem create_retry_conflict_policy_witness :
    createContainers varsDemo cwdDemo mrConflictOnceDemo =
      (CreateOutcome.success 2 10,
       [Effect.runProc (makeArgs varsDemo "all") (some cwdDemo),
        Effect.runProc (makeArgs varsDemo "all") (some cwdDemo)]) :=
  (create_retry_conflict_policy varsDemo cwdDemo mrConflictOnceDemo).2.1
    conflictDemoError (by decide) (by decide) (by decide)

/-- C7: the variable mapping fixed at construction is the one every
lifecycle invocation passes to the build tool. Every invocation issued by a
create run — whatever the per-attempt outcomes — is `make` followed by the
same `KEY=VALUE` arguments from the mapping and the target `all`; postflight
and destroy issue the same arguments with their own targets, reading the
immutable mapping of the constructed instance; and a create whose first two
attempts fail with a conflict signature and whose third succeeds issues
exactly three invocations with identical parameters. -/
theorem parameter_set_stable (vars : List (String × String)) (cwd : List String)
    (mr : Nat → Option CalledProcessError) (c : DCOS_Docker)
    (r : Option CalledProcessError) (removal_fails : Bool) :
    (∀ ef ∈ (createContainers vars cwd mr).2,
      ef = Effect.runProc (makeArgs vars "all") (some cwd)) ∧
    ((postflightRun c r).2 =
      [Effect.runProc (makeArgs c.vars "postflight") (some c.path)]) ∧
    ((destroyRun c r removal_fails).2.head? =
      some (Effect.runProc (makeArgs c.vars "clean") (some c.path))) ∧
    (∀ e0 e1, mr 0 = some e0 → isConflictError e0 = true →
      mr 1 = some e1 → isConflictError e1 = true → mr 2 = none →
      createContainers vars cwd mr =
        (CreateOutcome.success 3 20,
         [Effect.runProc (makeArgs vars "all") (some cwd),
          Effect.runProc (makeArgs vars "all") (some cwd),
          Effect.runProc (makeArgs vars "all") (some cwd)])) := by
  refine ⟨?_, ?_, ?_, ?_⟩
  · exact createGo_trace_runProc vars cwd mr 30 0 0 [] (by simp)
  · rfl
  · cases r <;> simp [destroyRun, rmtreeRun]
  · intro e0 e1 h0 hc0 h1 hc1 h2
    have s1 : createGo vars cwd mr 0 0 [] 30 =
        createGo vars cwd mr 1 10
          [Effect.runProc (makeArgs vars "all") (some cwd)] 29 := by
      simpa using createGo_conflict_step vars cwd mr 0 0 [] 28 e0 h0 hc0
    have s2 : createGo vars cwd mr 1 10
          [Effect.runProc (makeArgs vars "all") (some cwd)] 29 =
        createGo vars cwd mr 2 20
          [Effect.runProc (makeArgs vars "all") (some cwd),
           Effect.runProc (makeArgs vars "all") (some cwd)] 28 := by
      simpa using createGo_conflict_step vars cwd mr 1 10
        [Effect.runProc (makeArgs vars "all") (some cwd)] 27 e1 h1 hc1
    have s3 := createGo_ok vars cwd mr 2 20
      [Effect.runProc (makeArgs vars "all") (some cwd),
       Effect.runProc (makeArgs vars "all") (some cwd)] 27 h2
    show createGo vars cwd mr 0 0 [] 30 = _
    rw [s1, s2]
    simpa using s3

/-- Witness for C7: two conflict failures and a clean third attempt at a
concrete parameter set give three identical invocations. -/
theorem parameter_set_stable_witness :
    createContainers varsDemo cwdDemo mrConflictTwiceDemo =
      (CreateOutcome.success 3 20,
       [Effect.runProc (makeArgs varsDemo "all") (some cwdDemo),
        Effect.runProc (makeArgs varsDemo "all") (some cwdDemo),
        Effect.runProc (makeArgs varsDemo "all") (some cwdDemo)]) :=
  (parameter_set_stable varsDemo cwdDemo mrConflictTwiceDemo demoCluster
    none false).2.2.2 conflictDemoError conflictDemoError
    (by decide) (by decide) (by decide) (by decide) (by decide)

theorem stage_files_no_rmtree (workdir : List String) :
    ∀ (files : List (List String × List String)) (p : List String) (b : Bool),
      Effect.rmtree p b ∉ (stage_files workdir files).1 := by
  intro files
  induction files with
  | nil => intro p b; simp [stage_files]
  | cons pr rest ih =>
    intro p b
    cases pr with
    | mk host_path installer_path =>
      cases hrel : relative_to installer_path genconfRoot with
      | none => simp [stage_files, hrel]
      | some rel =>
        simp [stage_files, hrel]
        exact ih p b

/-- C6: destroy invokes the build tool with target `clean` strictly before
the working-directory removal — on a `clean` failure the error propagates
and no removal is issued — and the removal is issued with errors ignored,
so destroy succeeds whether or not the underlying removal fails. No other
modeled operation has a directory removal in its trace (postflight, the
create runs, and the whole constructor issue none), and no other operation
suppresses a failure: postflight propagates its process error unchanged and
a create run only reports success when its final attempt actually
succeeded. -/
theorem destroy_order_and_suppression :
    (∀ (c : DCOS_Docker) (removal_fails : Bool),
      destroyRun c none removal_fails =
        (Except.ok (),
         [Effect.runProc (makeArgs c.vars "clean") (some c.path),
          Effect.rmtree c.path true])) ∧
    (∀ (c : DCOS_Docker) (e : CalledProcessError) (removal_fails : Bool),
      destroyRun c (some e) removal_fails =
        (Except.error (DestroyError.make e),
         [Effect.runProc (makeArgs c.vars "clean") (some c.path)])) ∧
    (∀ (c : DCOS_Docker) (r : Option CalledProcessError) (p : List String)
        (b : Bool), Effect.rmtree p b ∉ (postflightRun c r).2) ∧
    (∀ (vars : List (String × String)) (cwd : List String)
        (mr : Nat → Option CalledProcessError) (p : List String) (b : Bool),
      Effect.rmtree p b ∉ (createContainers vars cwd mr).2) ∧
    (∀ (yd : ExtraConfig → String) (random host : String)
        (mr : Nat → Option CalledProcessError) (m a pa : Nat)
        (ec : ExtraConfig) (gcp ddp : List String)
        (ca : Option (List String)) (lg : Bool)
        (files : List (List String × List String)) (tmp : List String)
        (p : List String) (b : Bool),
      Effect.rmtree p b ∉
        (dcosDockerInit yd random host mr m a pa ec gcp ddp ca lg files tmp).2) ∧
    (∀ (c : DCOS_Docker) (e : CalledProcessError),
      (postflightRun c (some e)).1 = Except.error e) ∧
    (∀ (vars : List (String × String)) (cwd : List String)
        (mr : Nat → Option CalledProcessError) (n d : Nat),
      (createContainers vars cwd mr).1 = CreateOutcome.success n d →
      mr (n - 1) = none) := by
  refine ⟨?_, ?_, ?_, ?_, ?_, ?_, ?_⟩
  · intro c removal_fails
    simp [destroyRun, rmtreeRun]
  · intro c e removal_fails
    rfl
  · intro c r p b
    simp [postflightRun]
  · intro vars cwd mr p b hmem
    have h := createGo_trace_runProc vars cwd mr 30 0 0 [] (by simp) _ hmem
    simp at h
  · intro yd random host mr m a pa ec gcp ddp ca lg files tmp p b hmem
    rcases hst : stage_files (tmp ++ ["dcos-docker-" ++ random]) files
      with ⟨staged, err⟩
    have hstaged : Effect.rmtree p b ∉ staged := by
      have h := stage_files_no_rmtree (tmp ++ ["dcos-docker-" ++ random]) files p b
      rw [hst] at h
      exact h
    cases err with
    | some bad =>
      simp only [dcosDockerInit, hst] at hmem
      rcases List.mem_append.mp hmem with h | h
      · simp at h
      · exact hstaged h
    | none =>
      rcases hcr : createContainers
          (clusterVariables yd m a pa host random ec ca)
          (tmp ++ ["dcos-docker-" ++ random]) mr with ⟨o, tr⟩
      have htr : Effect.rmtree p b ∉ tr := by
        intro hin
        have h2 := createGo_trace_runProc
          (clusterVariables yd m a pa host random ec ca)
          (tmp ++ ["dcos-docker-" ++ random]) mr 30 0 0 [] (by simp)
          (Effect.rmtree p b) (by
            show Effect.rmtree p b ∈ (createContainers
              (clusterVariables yd m a pa host random ec ca)
              (tmp ++ ["dcos-docker-" ++ random]) mr).2
            rw [hcr]
            exact hin)
        simp at h2
      cases o with
      | success att d =>
        simp only [dcosDockerInit, hst, hcr] at hmem
        rcases List.mem_append.mp hmem with h | h
        · rcases List.mem_append.mp h with h2 | h2
          · simp at h2
          · exact hstaged h2
        · exact htr h
      | fatal e att d =>
        simp only [dcosDockerInit, hst, hcr] at hmem
        rcases List.mem_append.mp hmem with h | h
        · rcases List.mem_append.mp h with h2 | h2
          · simp at h2
          · exact hstaged h2
        · exact htr h
      | exhausted att d =>
        simp only [dcosDockerInit, hst, hcr] at hmem
        rcases List.mem_append.mp hmem with h | h
        · rcases List.mem_append.mp h with h2 | h2
          · simp at h2
          · exact hstaged h2
        · exact htr h
  · intro c e
    rfl
  · intro vars cwd mr n d h
    exact createGo_success_mr vars cwd mr 30 0 0 [] n d h

/-- Witness for C6: a destroy whose removal fails still succeeds, with the
`clean` invocation strictly before the removal, and a clean create run
reports a successful final attempt. -/
theorem destroy_order_and_suppression_witness :
    destroyRun demoCluster none true =
      (Except.ok (),
       [Effect.runProc (makeArgs demoCluster.vars "clean")
          (some demoCluster.path),
        Effect.rmtree demoCluster.path true]) ∧
    mrConflictOnceDemo (2 - 1) = none :=
  ⟨destroy_order_and_suppression.1 demoCluster true,
   destroy_order_and_suppression.2.2.2.2.2.2 varsDemo cwdDemo
     mrConflictOnceDemo 2 10 (by decide)⟩

/-- C5: during construction, when every caller-supplied installer
destination lies under the mount root `/genconf`, each host file is copied
to `<workingDirectory>/genconf/<destination relative to /genconf>` (in
mapping order, between the build-material staging and the create
invocations); and when some destination is not under that root, the
construction fails with the `ValueError` — the `InvalidArgument` kind —
raised for an offending destination. -/
theorem installer_files_staging (yd : ExtraConfig → String)
    (random host : String) (mr : Nat → Option CalledProcessError)
    (m a pa : Nat) (ec : ExtraConfig) (gcp ddp : List String)
    (ca : Option (List String)) (lg : Bool)
    (files : List (List String × List String)) (tmp : List String) :
    ((∀ pr ∈ files, (relative_to pr.2 genconfRoot).isSome) →
      (dcosDockerInit yd random host mr m a pa ec gcp ddp ca lg files tmp).2 =
        [Effect.copyTreeE ddp (tmp ++ ["dcos-docker-" ++ random]),
         Effect.copyFile gcp
           (tmp ++ ["dcos-docker-" ++ random] ++ ["dcos_generate_config.sh"])] ++
        files.map (fun pr => Effect.copyFile pr.1
          ((tmp ++ ["dcos-docker-" ++ random]) ++ ["genconf"] ++
            (relative_to pr.2 genconfRoot).getD [])) ++
        (createContainers (clusterVariables yd m a pa host random ec ca)
          (tmp ++ ["dcos-docker-" ++ random]) mr).2) ∧
    ((∃ pr ∈ files, relative_to pr.2 genconfRoot = none) →
      ∃ q, relative_to q genconfRoot = none ∧
        (dcosDockerInit yd random host mr m a pa ec gcp ddp ca lg files tmp).1 =
          Except.error (InitError.valueError q)) := by
  constructor
  · intro hall
    have hst := stage_files_all_ok (tmp ++ ["dcos-docker-" ++ random]) files hall
    rcases hcr : createContainers (clusterVariables yd m a pa host random ec ca)
        (tmp ++ ["dcos-docker-" ++ random]) mr with ⟨o, tr⟩
    cases o <;> simp [dcosDockerInit, hst, hcr]
  · intro hex
    obtain ⟨q, hq, hq2⟩ :=
      stage_files_err (tmp ++ ["dcos-docker-" ++ random]) files hex
    refine ⟨q, hq, ?_⟩
    rcases hst : stage_files (tmp ++ ["dcos-docker-" ++ random]) files
      with ⟨staged, err⟩
    rw [hst] at hq2
    simp only at hq2
    subst hq2
    simp [dcosDockerInit, hst]

/-- Witness for C5: a single pair destined for `/genconf/a` is staged to
`<workingDirectory>/genconf/a`. -/
theorem installer_files_staging_witness :
    (dcosDockerInit (fun _ => "") "r" "overlay" (fun _ => none) 1 0 0 []
      ["/", "gc"] ["/", "dd"] none false filesOkDemo ["/", "tmp"]).2 =
      [Effect.copyTreeE ["/", "dd"] (["/", "tmp"] ++ ["dcos-docker-" ++ "r"]),
       Effect.copyFile ["/", "gc"]
         (["/", "tmp"] ++ ["dcos-docker-" ++ "r"] ++ ["dcos_generate_config.sh"])] ++
      filesOkDemo.map (fun pr => Effect.copyFile pr.1
        ((["/", "tmp"] ++ ["dcos-docker-" ++ "r"]) ++ ["genconf"] ++
          (relative_to pr.2 genconfRoot).getD [])) ++
      (createContainers
        (clusterVariables (fun _ => "") 1 0 0 "overlay" "r" [] none)
        (["/", "tmp"] ++ ["dcos-docker-" ++ "r"]) (fun _ => none)).2 :=
  (installer_files_staging (fun _ => "") "r" "overlay" (fun _ => none) 1 0 0 []
    ["/", "gc"] ["/", "dd"] none false filesOkDemo ["/", "tmp"]).1 (by
      intro pr hpr
      simp [filesOkDemo] at hpr
      subst hpr
      decide)

/-- C9: the factory create forwards the topology counts, the CA key and
the logging flag unchanged, adds its fixed build-material, installer and
working-root paths, and passes freshly allocated copies of the two
caller-supplied mappings (empty when absent). The copies live at addresses
distinct from every caller-visible address, so overwriting any pre-existing
object afterwards changes neither the parameter set nor the staged files the
constructor derives from the copies. -/
theorem backend_create_forwarding (b : DCOS_Docker_Backend) (h : Heap)
    (masters agents public_agents : Nat)
    (extra_config_ref files_ref : Option Nat)
    (custom_ca_key : Option (List String)) (log_output_live : Bool)
    (yd : ExtraConfig → String) (host random : String)
    (hE : ∀ r ∈ extra_config_ref, r < h.next)
    (hF : ∀ r ∈ files_ref, r < h.next) :
    ∀ hres call,
      backendCreate b h masters agents public_agents extra_config_ref
        custom_ca_key log_output_live files_ref = (hres, call) →
      (call.masters = masters ∧ call.agents = agents ∧
        call.public_agents = public_agents ∧
        call.custom_ca_key = custom_ca_key ∧
        call.log_output_live = log_output_live) ∧
      (call.generate_config_path = b.generate_config_path ∧
        call.dcos_docker_path = b.dcos_docker_path ∧
        call.tmp_dir_path = b.tmp_dir_path) ∧
      ((hres.store call.extra_config_ref).asDict =
        (match extra_config_ref with
         | none => []
         | some r => (h.store r).asDict)) ∧
      ((hres.store call.files_ref).asPathDict =
        (match files_ref with
         | none => []
         | some r => (h.store r).asPathDict)) ∧
      (∀ r ∈ extra_config_ref, call.extra_config_ref ≠ r ∧ call.files_ref ≠ r) ∧
      (∀ r ∈ files_ref, call.extra_config_ref ≠ r ∧ call.files_ref ≠ r) ∧
      (∀ x, x < h.next → ∀ v,
        callParameterSet yd host random (hres.write x v) call =
          callParameterSet yd host random hres call ∧
        callStagedFiles random (hres.write x v) call =
          callStagedFiles random hres call) := by
  intro hres call heq
  simp only [backendCreate, Heap.alloc] at heq
  injection heq with h1 h2
  subst h1
  subst h2
  refine ⟨⟨rfl, rfl, rfl, rfl, rfl⟩, ⟨rfl, rfl, rfl⟩, ?_, ?_, ?_, ?_, ?_⟩
  · have hne : ¬ (h.next = h.next + 1) := by omega
    cases extra_config_ref <;> simp [hne, PyObj.asDict]
  · cases files_ref <;> simp [PyObj.asPathDict]
  · intro r hr
    have hrlt := hE r hr
    constructor <;> simp <;> omega
  · intro r hr
    have hrlt := hF r hr
    constructor <;> simp <;> omega
  · intro x hx v
    have hne1 : ¬ (h.next = x) := by omega
    have hne2 : ¬ (h.next + 1 = x) := by omega
    constructor
    · simp [callParameterSet, Heap.write, hne1]
    · simp [callStagedFiles, Heap.write, hne2]

/-- Witness for C9 at a concrete factory, heap and topology. -/
theorem backend_create_forwarding_witness :
    (backendCreate backendDemo heapDemo2 3 0 2 (some 0) none true
      (some 1)).2.masters = 3 ∧
    ((backendCreate backendDemo heapDemo2 3 0 2 (some 0) none true
        (some 1)).1.store
      (backendCreate backendDemo heapDemo2 3 0 2 (some 0) none true
        (some 1)).2.extra_config_ref).asDict = (heapDemo2.store 0).asDict := by
  have hmain := backend_create_forwarding backendDemo heapDemo2 3 0 2 (some 0)
    (some 1) none true (fun _ => "") "overlay" "r"
    (by simp [heapDemo2]) (by simp [heapDemo2]) _ _ rfl
  exact ⟨hmain.1.1, hmain.2.2.1⟩

/-- C10: composing the remote invocation mutates no caller object — after
the call the argument list and environment mapping of the caller hold exactly
their previous values — the composed value equals the pure composition on
the snapshot values, passing the environment as absent yields the same
invocation as passing an empty mapping, and `run_as_root` and
`popen_as_root` forward through the same composition, leaving the same heap
and wrapping the composed invocation in their process effect. -/
theorem compose_preserves_caller_state (ip_address : String)
    (ssh_key_path : List String) (h : Heap) (args_ref : Nat)
    (env_ref : Option Nat) (hA : args_ref < h.next)
    (hE : ∀ r ∈ env_ref, r < h.next) :
    ∀ hres res,
      composeSshCommandHeap ip_address ssh_key_path h args_ref env_ref =
        (hres, res) →
      (hres.store args_ref = h.store args_ref) ∧
      (∀ r ∈ env_ref, hres.store r = h.store r) ∧
      ((hres.store res).asList =
        compose_ssh_command ip_address ssh_key_path
          ((h.store args_ref).asList)
          (env_ref.map (fun r => (h.store r).asDict))) ∧
      (∀ args2, compose_ssh_command ip_address ssh_key_path args2 none =
        compose_ssh_command ip_address ssh_key_path args2 (some [])) ∧
      (runAsRootHeap ip_address ssh_key_path h args_ref env_ref =
        (hres, Effect.runProc ((hres.store res).asList) none)) ∧
      (popenAsRootHeap ip_address ssh_key_path h args_ref env_ref =
        (hres, Effect.spawnProc ((hres.store res).asList))) := by
  intro hres res heq
  have hA0 : ¬ (args_ref = h.next) := by omega
  have hA1 : ¬ (args_ref = h.next + 1) := by omega
  have hA2 : ¬ (args_ref = h.next + 2) := by omega
  have hn01 : ¬ (h.next = h.next + 1) := by omega
  have hn02 : ¬ (h.next = h.next + 2) := by omega
  have hn12 : ¬ (h.next + 1 = h.next + 2) := by omega
  simp only [composeSshCommandHeap, Heap.alloc, Heap.write] at heq
  injection heq with h1 h2
  subst h1
  subst h2
  refine ⟨?_, ?_, ?_, ?_, ?_, ?_⟩
  · simp [hA0, hA1, hA2]
  · intro r hr
    have hrlt := hE r hr
    have hr0 : ¬ (r = h.next) := by omega
    have hr1 : ¬ (r = h.next + 1) := by omega
    have hr2 : ¬ (r = h.next + 2) := by omega
    simp [hr0, hr1, hr2]
  · cases env_ref with
    | none =>
      simp [compose_ssh_command, hA0, hA1, hA2, hn01, hn02, hn12,
        PyObj.asList, PyObj.asDict, foldl_export_append]
    | some r =>
      have hrlt := hE r (by simp)
      have hr1 : ¬ (r = h.next + 1) := by omega
      simp [compose_ssh_command, hA0, hA1, hA2, hn01, hn02, hn12, hr1,
        PyObj.asList, PyObj.asDict, foldl_export_append]
  · intro args2
    rfl
  · simp [runAsRootHeap, composeSshCommandHeap, Heap.alloc, Heap.write]
  · simp [popenAsRootHeap, composeSshCommandHeap, Heap.alloc, Heap.write]

/-- Witness for C10 at a concrete heap holding the caller argument list at
address 0 and environment mapping at address 1. -/
theorem compose_preserves_caller_state_witness :
    (composeSshCommandHeap "10.0.0.1" ["/", "k"] heapDemo 0 (some 1)).1.store 0 =
      heapDemo.store 0 ∧
    ((composeSshCommandHeap "10.0.0.1" ["/", "k"] heapDemo 0
        (some 1)).1.store
      (composeSshCommandHeap "10.0.0.1" ["/", "k"] heapDemo 0
        (some 1)).2).asList =
      compose_ssh_command "10.0.0.1" ["/", "k"] ((heapDemo.store 0).asList)
        ((some 1).map (fun r => (heapDemo.store r).asDict)) := by
  have hmain := compose_preserves_caller_state "10.0.0.1" ["/", "k"] heapDemo 0
    (some 1) (by simp [heapDemo]) (by simp [heapDemo]) _ _ rfl
  exact ⟨hmain.1, hmain.2.2.1⟩
